import Mathlib

/-!
Verification of the metric-aggregation and insight-derivation engine of
`utils/analysis.py` ("Rhythm of the Machines"): schema validation, the inner
join on `date`, the rhythm-score computation, the anomaly rules and the
insight rules.

Modelling conventions (shallow embedding):
* a pandas DataFrame is a `List` of row structures; a date is an `ℤ`;
  every numeric cell is an exact rational `ℚ`;
* a float that may be NaN is `PFloat := Option ℚ`, with `none` playing the
  role of NaN: every arithmetic operation propagates `none`, and every
  ordered comparison with `none` is `false` (IEEE-754 NaN semantics, which
  is all the source relies on);
* `round` is Python's `round` idealised over `ℚ`: round-half-to-even at a
  given number of decimal digits.
-/

/-- One row of the work CSV (`date`, `work_hours`, `tasks_completed`).
Extra numeric columns such as `server_uptime` are ignored by the engine. -/
structure WorkRow where
  date : ℤ
  work_hours : ℚ
  tasks_completed : ℚ
deriving DecidableEq

/-- One row of the mood CSV (`date`, `mood_score`, `stress_level`, `sleep_hours`). -/
structure MoodRow where
  date : ℤ
  mood_score : ℚ
  stress_level : ℚ
  sleep_hours : ℚ
deriving DecidableEq

/-- One row of `merged_df = pd.merge(work_df, mood_df, on='date', how='inner')`.
`hour_category` is the column that `generate_insights` assigns into the merged
frame (`pd.cut` labels); it is `none` (NaN / absent) until that assignment. -/
structure MergedRow where
  date : ℤ
  work_hours : ℚ
  tasks_completed : ℚ
  mood_score : ℚ
  stress_level : ℚ
  sleep_hours : ℚ
  hour_category : Option String := none
deriving DecidableEq

/-- `pd.merge(work_df, mood_df, on='date', how='inner')` with the default
`sort=False`: for each left (work) row in order, all matching right (mood)
rows in order.  With unique dates this is one output row per shared date,
in the order the shared dates appear in the *work* table. -/
def pdMerge (work_df : List WorkRow) (mood_df : List MoodRow) : List MergedRow :=
  work_df.flatMap fun w =>
    (mood_df.filter fun m => m.date == w.date).map fun m =>
      { date := w.date
        work_hours := w.work_hours
        tasks_completed := w.tasks_completed
        mood_score := m.mood_score
        stress_level := m.stress_level
        sleep_hours := m.sleep_hours }

/-! ### Python `round` (banker's rounding) over `ℚ` -/

/-- Round to the nearest integer, ties to the even integer
(the rounding mode of Python's built-in `round`). -/
def roundHalfEven (q : ℚ) : ℤ :=
  let f := q.floor
  let r := q - f
  if r < 1/2 then f
  else if 1/2 < r then f + 1
  else if f % 2 = 0 then f else f + 1

/-- Python's `round(q, 1)`. -/
def round1 (q : ℚ) : ℚ := (roundHalfEven (q * 10) : ℚ) / 10

/-! ### NaN-propagating floats -/

/-- A float that may be NaN; `none` is NaN. -/
abbrev PFloat := Option ℚ

/-- Lift a binary `ℚ` operation to `PFloat`, propagating NaN. -/
def pbin (f : ℚ → ℚ → ℚ) : PFloat → PFloat → PFloat
  | some a, some b => some (f a b)
  | _, _ => none

instance : Add PFloat := ⟨pbin (· + ·)⟩
instance : Sub PFloat := ⟨pbin (· - ·)⟩
instance : Mul PFloat := ⟨pbin (· * ·)⟩
instance : Div PFloat := ⟨pbin (· / ·)⟩
instance (n : ℕ) : OfNat PFloat n := ⟨some (OfNat.ofNat n)⟩

/-- Python's `min(c, x)` where `c` is a non-NaN constant written first:
`min` keeps its first argument when the comparison with NaN is false, so
`min(c, NaN) = c`. -/
def pyMin (c : ℚ) : PFloat → PFloat
  | none => some c
  | some x => some (min c x)

/-- `abs`, propagating NaN. -/
def pAbs : PFloat → PFloat := Option.map (fun q => |q|)

/-- `round(·, 1)`, propagating NaN (`round(nan, 1)` is NaN). -/
def pRound1 : PFloat → PFloat := Option.map round1

/-- Mean of a nonempty column as a plain rational (only used where the
source guards nonemptiness). -/
def meanOf (l : List ℚ) : ℚ := l.sum / l.length

/-- `Series.mean()`: NaN on an empty column. -/
def pmean (l : List ℚ) : PFloat := if l = [] then none else some (meanOf l)

/-! ### Pearson correlation

`Series.corr` returns a real number `sxy / √(sxx·syy)` which is irrational in
general; the source only ever (a) stores it, (b) compares it (or its value
rounded to two decimals) against the constants `-0.3`, `0.3`, `0.4`.  We keep
the exact sufficient statistics `(sxy, sxx, syy)` and implement those
comparisons exactly; `none` is the NaN produced when a series is empty or has
zero variance. -/

/-- Sufficient statistics of a Pearson correlation: the correlation value is
`sxy / √(sxx·syy)` with `sxx > 0`, `syy > 0`. -/
structure Corr where
  sxy : ℚ
  sxx : ℚ
  syy : ℚ
deriving DecidableEq

/-- `xs.corr(ys)`: NaN (`none`) when the series are empty or either has zero
variance, otherwise the sufficient statistics of the Pearson coefficient. -/
def pearsonStats (xs ys : List ℚ) : Option Corr :=
  if xs.length = 0 then none
  else
    let n : ℚ := xs.length
    let mx := xs.sum / n
    let my := ys.sum / n
    let sxx := (xs.map fun x => (x - mx) ^ 2).sum
    let syy := (ys.map fun y => (y - my) ^ 2).sum
    let sxy := ((xs.zip ys).map fun p => (p.1 - mx) * (p.2 - my)).sum
    if sxx = 0 ∨ syy = 0 then none else some ⟨sxy, sxx, syy⟩

/-- `corr > t` for a threshold `t > 0` (false on NaN):
`sxy / √(sxx·syy) > t  ↔  sxy > 0 ∧ sxy² > t²·sxx·syy`. -/
def corrGtPos (c : Option Corr) (t : ℚ) : Bool :=
  match c with
  | none => false
  | some s => decide (0 < s.sxy ∧ t ^ 2 * (s.sxx * s.syy) < s.sxy ^ 2)

/-- `corr < -t` for a threshold `t > 0` (false on NaN):
`sxy / √(sxx·syy) < -t  ↔  sxy < 0 ∧ sxy² > t²·sxx·syy`. -/
def corrLtNeg (c : Option Corr) (t : ℚ) : Bool :=
  match c with
  | none => false
  | some s => decide (s.sxy < 0 ∧ t ^ 2 * (s.sxx * s.syy) < s.sxy ^ 2)

/-! ### `validate_csv_format` -/

/-- The `required_columns` dict of `validate_csv_format`: note the second
kind is keyed by the literal string `'mood'` in the source. -/
def required_columns (data_type : String) : Option (List String) :=
  if data_type = "work" then some ["date", "work_hours", "tasks_completed"]
  else if data_type = "mood" then some ["date", "mood_score", "stress_level", "sleep_hours"]
  else none

/-- The set difference `set(required) - set(df.columns)` as a list (Python
iterates a small string set in an unspecified but content-equal order; we keep
the required-list order, which has the same members). -/
def missingCols (cols : List String) (required : List String) : List String :=
  required.filter fun c => !(cols.contains c)

/-- `validate_csv_format(df, data_type)`, with the DataFrame abstracted to its
column list (the function reads nothing else).  Returns `(ok, message)`. -/
def validate_csv_format (cols : List String) (data_type : String) : Bool × String :=
  match required_columns data_type with
  | none => (false, "Invalid data type")
  | some required =>
    let missing := missingCols cols required
    if missing ≠ [] then (false, "Missing columns: " ++ String.intercalate ", " missing)
    else (true, "Valid format")

/-! ### `calculate_rhythm_score` -/

/-- The dict returned by `calculate_rhythm_score`.  The `correlation` entry is
`round(corr, 2)` in the source; here it keeps the exact `Corr` statistics
(rounding to two decimals never turns a NaN into a number or vice versa). -/
structure ScoreResult where
  rhythm_score : PFloat
  machine_score : PFloat
  human_score : PFloat
  avg_work_hours : PFloat
  avg_mood : PFloat
  avg_stress : PFloat
  avg_sleep : PFloat
  correlation : Option Corr
  merged_data : List MergedRow
deriving DecidableEq

/-- `calculate_rhythm_score(work_df, mood_df)`.  A transcription of the
source: merge, component scores, balance penalty, rounding.  The function is
total because on an empty merge pandas produces NaN means and the arithmetic
silently propagates them (`min(100, NaN)` evaluates to `100`). -/
def calculate_rhythm_score (work_df : List WorkRow) (mood_df : List MoodRow) : ScoreResult :=
  let merged_df := pdMerge work_df mood_df
  let avg_work_hours := pmean (merged_df.map (·.work_hours))
  let avg_tasks := pmean (merged_df.map (·.tasks_completed))
  let machine_score := pyMin 100 (avg_work_hours / 8 * 50 + avg_tasks / 10 * 50)
  let avg_mood := pmean (merged_df.map (·.mood_score))
  let avg_stress := pmean (merged_df.map (·.stress_level))
  let avg_sleep := pmean (merged_df.map (·.sleep_hours))
  let human_score := avg_mood / 10 * 40 + (10 - avg_stress) / 10 * 30 + avg_sleep / 8 * 30
  let imbalance := pAbs (machine_score - human_score)
  let balance_penalty := imbalance / 100 * 20
  let rhythm_score := (machine_score + human_score) / 2 - balance_penalty
  { rhythm_score := pRound1 rhythm_score
    machine_score := pRound1 machine_score
    human_score := pRound1 human_score
    avg_work_hours := pRound1 avg_work_hours
    avg_mood := pRound1 avg_mood
    avg_stress := pRound1 avg_stress
    avg_sleep := pRound1 avg_sleep
    correlation := pearsonStats (merged_df.map (·.work_hours)) (merged_df.map (·.mood_score))
    merged_data := merged_df }

/-! Spec-side raw component scores (the formulas of spec §4.3, which the
source computes before rounding), used to state the functional claims. -/

/-- Spec §4.3: `machine_score = min(100, avg(work_hours)/8*50 + avg(tasks_completed)/10*50)`. -/
def machineRaw (l : List MergedRow) : ℚ :=
  min 100 (meanOf (l.map (·.work_hours)) / 8 * 50 + meanOf (l.map (·.tasks_completed)) / 10 * 50)

/-- Spec §4.3: `human_score = avg(mood)/10*40 + (10 - avg(stress))/10*30 + avg(sleep)/8*30`. -/
def humanRaw (l : List MergedRow) : ℚ :=
  meanOf (l.map (·.mood_score)) / 10 * 40 + (10 - meanOf (l.map (·.stress_level))) / 10 * 30 +
    meanOf (l.map (·.sleep_hours)) / 8 * 30

/-- Spec §4.3: `rhythm_score = (machine+human)/2 - |machine-human|/100*20` (before rounding). -/
def rhythmRaw (l : List MergedRow) : ℚ :=
  (machineRaw l + humanRaw l) / 2 - |machineRaw l - humanRaw l| / 100 * 20

/-! ### `detect_anomalies` -/

/-- One element of the anomaly list: the `'type'`, `'title'` and `'icon'`
keys of the dict, plus the one numeric quantity interpolated into the
`'description'` f-string (a day count, or the rounded mood delta). -/
structure Anomaly where
  type : String
  title : String
  value : ℚ
  icon : String
deriving DecidableEq

/-- The overwork loop of `detect_anomalies`:
`consecutive_overwork` / `max_consecutive` over the `work_hours` column. -/
def maxConsecAux : List ℚ → ℕ → ℕ → ℕ
  | [], _, best => best
  | h :: t, cur, best =>
    if h > 9 then maxConsecAux t (cur + 1) (max best (cur + 1))
    else maxConsecAux t 0 best

/-- `max_consecutive` after the loop, starting from zeros. -/
def maxConsec (l : List ℚ) : ℕ := maxConsecAux l 0 0

/-- Declarative "longest run": the length of the longest block of
consecutive entries `> 9`, phrased as the maximum over all suffixes of the
length of the initial all-`> 9` segment. -/
def runLen (t : List ℚ) : ℕ := (t.takeWhile fun x => decide (x > 9)).length

/-- The longest run of consecutive entries `> 9` anywhere in the list. -/
def longestRun (l : List ℚ) : ℕ := (l.tails.map runLen).foldr max 0

/-- `detect_anomalies(merged_df)`: the four independent rules of the source,
in source order. -/
def detect_anomalies (merged_df : List MergedRow) : List Anomaly :=
  let burnout_days := merged_df.filter fun r =>
    decide (r.work_hours > 10) && decide (r.mood_score < 5)
  let a1 : List Anomaly :=
    if burnout_days.length > 0 then
      [{ type := "danger", title := "Burnout Risk Detected",
         value := (burnout_days.length : ℚ), icon := "🚨" }]
    else []
  let sleep_deficit := merged_df.filter fun r => decide (r.sleep_hours < 6)
  let a2 : List Anomaly :=
    if sleep_deficit.length > 3 then
      [{ type := "warning", title := "Sleep Deficit Pattern",
         value := (sleep_deficit.length : ℚ), icon := "😴" }]
    else []
  let a3 : List Anomaly :=
    if merged_df.length > 7 then
      let recent_mood := meanOf ((merged_df.drop (merged_df.length - 7)).map (·.mood_score))
      let earlier_mood := meanOf ((merged_df.take 7).map (·.mood_score))
      if recent_mood > earlier_mood + 1 then
        [{ type := "success", title := "Positive Mood Trend",
           value := round1 (recent_mood - earlier_mood), icon := "✨" }]
      else []
    else []
  let a4 : List Anomaly :=
    if maxConsec (merged_df.map (·.work_hours)) ≥ 3 then
      [{ type := "warning", title := "Extended Overwork Period",
         value := (maxConsec (merged_df.map (·.work_hours)) : ℚ), icon := "⚠️" }]
    else []
  a1 ++ a2 ++ a3 ++ a4

/-! ### `generate_insights` -/

/-- `pd.cut(work_hours, bins=[0,7,9,24], labels=['Low','Optimal','High'])`
for one value: left-open right-closed bins, NaN (`none`) outside `(0, 24]`. -/
def hourCategory (h : ℚ) : Option String :=
  if 0 < h ∧ h ≤ 7 then some "Low"
  else if 7 < h ∧ h ≤ 9 then some "Optimal"
  else if 9 < h ∧ h ≤ 24 then some "High"
  else none

/-- One insight dict: its `'icon'`, `'title'` and `'color'` keys, plus the
numeric quantities interpolated into the `'description'`/`'recommendation'`
f-strings where those are rational (`value`, `value2`) and the categorical
label used by insight 1 (`label`).  The interpolated correlation values are
irrational and are carried by the `ScoreResult`/`Corr` statistics instead. -/
structure Insight where
  icon : String
  title : String
  color : String
  value : PFloat := none
  value2 : PFloat := none
  label : String := ""
deriving DecidableEq

/-- `Series.idxmax()` over the per-category means (categories in the fixed
`pd.cut` order): the first label whose mean is maximal among the non-NaN
means, together with that mean; `none` when every mean is NaN, a case in
which pandas raises. -/
def idxmax (l : List (String × PFloat)) : Option (String × ℚ) :=
  l.foldl
    (fun acc p =>
      match p.2, acc with
      | none, a => a
      | some q, none => some (p.1, q)
      | some q, some (c0, q0) => if q > q0 then some (p.1, q) else some (c0, q0))
    none

/-- Stable insertion into an ascending list (helper for sorting a column the
way `Series.quantile`/`Series.median` do). -/
def sortedInsert (x : ℚ) : List ℚ → List ℚ
  | [] => [x]
  | y :: t => if x ≤ y then x :: y :: t else y :: sortedInsert x t

/-- Ascending sort of a column. -/
def sortAsc (l : List ℚ) : List ℚ := l.foldr sortedInsert []

/-- `Series.quantile(q)` with the default linear interpolation, on a
nonempty column (callers guard emptiness). -/
def quantile (l : List ℚ) (q : ℚ) : ℚ :=
  let s := sortAsc l
  let pos : ℚ := q * ((s.length : ℚ) - 1)
  let i := (⌊pos⌋).toNat
  let fr : ℚ := pos - (⌊pos⌋ : ℚ)
  match s.getD (i + 1) 0, (i + 1 < s.length : Bool) with
  | hi, true => s.getD i 0 + fr * (hi - s.getD i 0)
  | _, false => s.getD i 0

/-- `Series.median()`: NaN on an empty column, else the interpolated
mid-quantile. -/
def pmedian (l : List ℚ) : PFloat := if l = [] then none else some (quantile l (1/2))

/-- `|work_hours - optimal_work| < 1` where `optimal_work` may be NaN
(the comparison is then false). -/
def nearOptimal (wh : ℚ) : PFloat → Bool
  | none => false
  | some o => decide (|wh - o| < 1)

/-- `generate_insights(analysis_results)`.

The source *assigns* `merged_df['hour_category'] = pd.cut(...)`, mutating the
joined table shared through `analysis_results`; the embedding passes that
state explicitly and returns the updated table next to the insight list.
`Except.error` models the `idxmax` raise when every bucket mean is NaN
(in particular on an empty joined table, where the later division by
`len(merged_df)` would also raise).

The correlation comparisons: the source compares `round(corr, 2)` with
`±0.3`, and `round(corr, 2) > 0.3 ↔ corr > 0.305` (half-to-even makes the
tie at `0.305` round down to `0.30`), symmetrically for `< -0.3`; the sleep
correlation is compared raw against `0.4`. -/
def generate_insights (analysis_results : ScoreResult) :
    Except String (List Insight × List MergedRow) :=
  let merged_df := analysis_results.merged_data.map fun row =>
    { row with hour_category := hourCategory row.work_hours }
  let correlation := analysis_results.correlation
  let mood_by_hours := ["Low", "Optimal", "High"].map fun c =>
    (c, pmean ((merged_df.filter fun r => r.hour_category == some c).map (·.mood_score)))
  match idxmax mood_by_hours with
  | none => Except.error "idxmax over all-NaN bucket means"
  | some best =>
    let ins1 : Insight :=
      { icon := "📈", title := "Peak Productivity Pattern", color := "machine",
        value := some best.2, label := best.1 }
    let ins2 : List Insight :=
      if corrLtNeg correlation (305/1000) then
        [{ icon := "💔", title := "Negative Work-Wellbeing Link", color := "human" }]
      else if corrGtPos correlation (305/1000) then
        [{ icon := "💚", title := "Positive Work-Wellbeing Link", color := "balance" }]
      else []
    let sleep_mood_corr := pearsonStats (merged_df.map (·.sleep_hours)) (merged_df.map (·.mood_score))
    let ins3 : List Insight :=
      if corrGtPos sleep_mood_corr (4/10) then
        [{ icon := "😴", title := "Sleep is Your Superpower", color := "human",
           value := some (quantile (merged_df.map (·.sleep_hours)) (3/4)) }]
      else []
    let optimal_work := pmedian ((merged_df.filter fun r => decide (r.mood_score ≥ 7)).map (·.work_hours))
    let adherence : ℚ :=
      ((merged_df.filter fun r => nearOptimal r.work_hours optimal_work).length : ℚ) /
        (merged_df.length : ℚ) * 100
    let ins4 : Insight :=
      { icon := "🎯", title := "Your Sweet Spot Identified", color := "balance",
        value := optimal_work, value2 := some adherence }
    Except.ok (ins1 :: (ins2 ++ ins3 ++ [ins4]), merged_df)

/-! ### Basic lemmas about the embedding -/

theorem ratFloor_eq (q : ℚ) : q.floor = ⌊q⌋ := by
  rw [Rat.floor_def', Rat.floor_def]

@[simp] theorem pf_some_add (a b : ℚ) : (some a + some b : PFloat) = some (a + b) := rfl

@[simp] theorem pf_some_sub (a b : ℚ) : (some a - some b : PFloat) = some (a - b) := rfl

@[simp] theorem pf_some_mul (a b : ℚ) : (some a * some b : PFloat) = some (a * b) := rfl

@[simp] theorem pf_some_div (a b : ℚ) : (some a / some b : PFloat) = some (a / b) := rfl

@[simp] theorem pf_ofNat (n : ℕ) : (OfNat.ofNat n : PFloat) = some (OfNat.ofNat n) := rfl

@[simp] theorem pyMin_some (c x : ℚ) : pyMin c (some x) = some (min c x) := rfl

@[simp] theorem pyMin_none (c : ℚ) : pyMin c none = some c := rfl

@[simp] theorem pAbs_some (a : ℚ) : pAbs (some a) = some |a| := rfl

@[simp] theorem pRound1_some (a : ℚ) : pRound1 (some a) = some (round1 a) := rfl

theorem pmean_eq {l : List ℚ} (h : l ≠ []) : pmean l = some (meanOf l) := if_neg h

/-- `roundHalfEven` never rounds above an integer upper bound. -/
theorem roundHalfEven_le {q : ℚ} {c : ℤ} (h : q ≤ c) : roundHalfEven q ≤ c := by
  have hf : ⌊q⌋ ≤ c := by
    have := (Int.floor_le_floor h).trans_eq (Int.floor_intCast c)
    exact this
  have hfq : (⌊q⌋ : ℚ) ≤ q := Int.floor_le q
  unfold roundHalfEven
  simp only [ratFloor_eq]
  split_ifs with h1 h2 h3
  · exact hf
  · have hlt : (⌊q⌋ : ℚ) < q := by linarith
    have : (⌊q⌋ : ℚ) < (c : ℚ) := lt_of_lt_of_le hlt h
    exact Int.add_one_le_iff.mpr (by exact_mod_cast this)
  · exact hf
  · have hlt : (⌊q⌋ : ℚ) < q := by linarith
    have : (⌊q⌋ : ℚ) < (c : ℚ) := lt_of_lt_of_le hlt h
    exact Int.add_one_le_iff.mpr (by exact_mod_cast this)

/-- `round(·, 1)` never rounds above an integer upper bound. -/
theorem round1_le {q : ℚ} {c : ℤ} (h : q ≤ (c : ℚ)) : round1 q ≤ (c : ℚ) := by
  have h10 : q * 10 ≤ ((c * 10 : ℤ) : ℚ) := by push_cast; linarith
  have hr := roundHalfEven_le h10
  unfold round1
  rw [div_le_iff₀ (by norm_num : (0:ℚ) < 10)]
  calc (roundHalfEven (q * 10) : ℚ) ≤ ((c * 10 : ℤ) : ℚ) := by exact_mod_cast hr
    _ = (c : ℚ) * 10 := by push_cast; ring

/-- On a nonempty merge, every field of `calculate_rhythm_score` is the
rounded value of the corresponding raw spec formula. -/
theorem calculate_spec (work_df : List WorkRow) (mood_df : List MoodRow)
    (h : pdMerge work_df mood_df ≠ []) :
    calculate_rhythm_score work_df mood_df =
      { rhythm_score := some (round1 (rhythmRaw (pdMerge work_df mood_df)))
        machine_score := some (round1 (machineRaw (pdMerge work_df mood_df)))
        human_score := some (round1 (humanRaw (pdMerge work_df mood_df)))
        avg_work_hours := some (round1 (meanOf ((pdMerge work_df mood_df).map (·.work_hours))))
        avg_mood := some (round1 (meanOf ((pdMerge work_df mood_df).map (·.mood_score))))
        avg_stress := some (round1 (meanOf ((pdMerge work_df mood_df).map (·.stress_level))))
        avg_sleep := some (round1 (meanOf ((pdMerge work_df mood_df).map (·.sleep_hours))))
        correlation := pearsonStats ((pdMerge work_df mood_df).map (·.work_hours))
          ((pdMerge work_df mood_df).map (·.mood_score))
        merged_data := pdMerge work_df mood_df } := by
  have hmap : ∀ f : MergedRow → ℚ, (pdMerge work_df mood_df).map f ≠ [] :=
    fun f hf => h (List.map_eq_nil_iff.mp hf)
  have e : ∀ f : MergedRow → ℚ,
      pmean ((pdMerge work_df mood_df).map f) = some (meanOf ((pdMerge work_df mood_df).map f)) :=
    fun f => pmean_eq (hmap f)
  simp only [calculate_rhythm_score, e, pf_some_add, pf_some_sub, pf_some_mul, pf_some_div,
    pf_ofNat, pyMin_some, pAbs_some, pRound1_some, machineRaw, humanRaw, rhythmRaw]

/-! ### Claims C2 and C3 -/

/-- Concrete fixture tables used to witness the universally quantified
claims (two shared dates, non-negative values). -/
def wA : List WorkRow := [⟨1, 9, 12⟩, ⟨2, 7, 8⟩]

/-- Mood half of the fixture. -/
def mA : List MoodRow := [⟨1, 8, 3, 8⟩, ⟨2, 6, 4, 7⟩]

/-- Claim C2: for every non-empty joined table the reported `rhythm_score`
is `round((machine+human)/2 - |machine-human|/100*20, 1)` computed from the
raw (unrounded) component scores, and the reported component scores and
averages are those raw values rounded to one decimal. -/
theorem claim_C2_rhythm_formula (work_df : List WorkRow) (mood_df : List MoodRow)
    (h : pdMerge work_df mood_df ≠ []) :
    (calculate_rhythm_score work_df mood_df).rhythm_score =
        some (round1 ((machineRaw (pdMerge work_df mood_df) + humanRaw (pdMerge work_df mood_df)) / 2 -
          |machineRaw (pdMerge work_df mood_df) - humanRaw (pdMerge work_df mood_df)| / 100 * 20)) ∧
      (calculate_rhythm_score work_df mood_df).machine_score =
        some (round1 (machineRaw (pdMerge work_df mood_df))) ∧
      (calculate_rhythm_score work_df mood_df).human_score =
        some (round1 (humanRaw (pdMerge work_df mood_df))) ∧
      (calculate_rhythm_score work_df mood_df).avg_work_hours =
        some (round1 (meanOf ((pdMerge work_df mood_df).map (·.work_hours)))) ∧
      (calculate_rhythm_score work_df mood_df).avg_mood =
        some (round1 (meanOf ((pdMerge work_df mood_df).map (·.mood_score)))) ∧
      (calculate_rhythm_score work_df mood_df).avg_stress =
        some (round1 (meanOf ((pdMerge work_df mood_df).map (·.stress_level)))) ∧
      (calculate_rhythm_score work_df mood_df).avg_sleep =
        some (round1 (meanOf ((pdMerge work_df mood_df).map (·.sleep_hours)))) := by
  rw [calculate_spec work_df mood_df h]
  exact ⟨rfl, rfl, rfl, rfl, rfl, rfl, rfl⟩

/-- Witness for C2 on the concrete fixture. -/
theorem claim_C2_witness :
    (calculate_rhythm_score wA mA).rhythm_score =
      some (round1 ((machineRaw (pdMerge wA mA) + humanRaw (pdMerge wA mA)) / 2 -
        |machineRaw (pdMerge wA mA) - humanRaw (pdMerge wA mA)| / 100 * 20)) :=
  (claim_C2_rhythm_formula wA mA (by with_unfolding_all decide)).1

/-- Claim C3: for every non-empty joined table with non-negative
`work_hours` and `tasks_completed`, the machine score is
`min(100, avg(work_hours)/8*50 + avg(tasks_completed)/10*50)`; both it and
its reported (rounded) value are at most 100. -/
theorem claim_C3_machine_cap (work_df : List WorkRow) (mood_df : List MoodRow)
    (h : pdMerge work_df mood_df ≠ [])
    (_hnn : ∀ r ∈ pdMerge work_df mood_df, 0 ≤ r.work_hours ∧ 0 ≤ r.tasks_completed) :
    (calculate_rhythm_score work_df mood_df).machine_score =
        some (round1 (machineRaw (pdMerge work_df mood_df))) ∧
      machineRaw (pdMerge work_df mood_df) =
        min 100 (meanOf ((pdMerge work_df mood_df).map (·.work_hours)) / 8 * 50 +
          meanOf ((pdMerge work_df mood_df).map (·.tasks_completed)) / 10 * 50) ∧
      machineRaw (pdMerge work_df mood_df) ≤ 100 ∧
      round1 (machineRaw (pdMerge work_df mood_df)) ≤ 100 := by
  refine ⟨?_, rfl, ?_, ?_⟩
  · rw [calculate_spec work_df mood_df h]
  · exact min_le_left _ _
  · have hle : machineRaw (pdMerge work_df mood_df) ≤ ((100 : ℤ) : ℚ) := by
      exact_mod_cast min_le_left 100 _
    have := round1_le hle
    exact_mod_cast this

/-- Witness for C3 on the concrete fixture. -/
theorem claim_C3_witness :
    (calculate_rhythm_score wA mA).machine_score = some (round1 (machineRaw (pdMerge wA mA))) ∧
      machineRaw (pdMerge wA mA) =
        min 100 (meanOf ((pdMerge wA mA).map (·.work_hours)) / 8 * 50 +
          meanOf ((pdMerge wA mA).map (·.tasks_completed)) / 10 * 50) ∧
      machineRaw (pdMerge wA mA) ≤ 100 ∧
      round1 (machineRaw (pdMerge wA mA)) ≤ 100 :=
  claim_C3_machine_cap wA mA (by with_unfolding_all decide)
    (by with_unfolding_all decide)

/-! ### Claim C4: the join -/

/-- For a mood table with unique dates, the rows matching a given date map
to `[d]` when the date is present and to `[]` otherwise. -/
theorem filter_date_map (mood_df : List MoodRow) (d : ℤ)
    (hm : (mood_df.map (·.date)).Nodup) :
    (mood_df.filter fun m => m.date == d).map (fun _ => d) =
      if d ∈ mood_df.map (·.date) then [d] else [] := by
  induction mood_df with
  | nil => simp
  | cons y t ih =>
    simp only [List.map_cons, List.nodup_cons] at hm
    obtain ⟨hy, ht⟩ := hm
    by_cases hyd : y.date = d
    · subst hyd
      have htail : (t.filter fun m => m.date == y.date) = [] := by
        apply List.filter_eq_nil_iff.mpr
        intro a ha hbeq
        have had : a.date = y.date := by simpa using hbeq
        exact absurd (List.mem_map.mpr ⟨a, ha, had⟩) hy
      simp [List.filter_cons, htail]
    · have hbeq : (y.date == d) = false := beq_eq_false_iff_ne.mpr hyd
      have hdy : d ≠ y.date := Ne.symm hyd
      simp [List.filter_cons, hbeq, ih ht, List.mem_cons, hdy]

/-- The `date` column of the join is the work table's `date` column filtered
to the dates also present in the mood table (mood dates unique). -/
theorem pdMerge_map_date (work_df : List WorkRow) (mood_df : List MoodRow)
    (hm : (mood_df.map (·.date)).Nodup) :
    (pdMerge work_df mood_df).map (·.date) =
      (work_df.map (·.date)).filter fun d => decide (d ∈ mood_df.map (·.date)) := by
  induction work_df with
  | nil => rfl
  | cons w ws ih =>
    simp only [pdMerge, List.flatMap_cons] at ih ⊢
    rw [List.map_append, List.map_map]
    have hcomp :
        ((·.date) ∘ fun m : MoodRow =>
          ({ date := w.date, work_hours := w.work_hours, tasks_completed := w.tasks_completed,
             mood_score := m.mood_score, stress_level := m.stress_level,
             sleep_hours := m.sleep_hours } : MergedRow)) = fun _ => w.date := rfl
    rw [hcomp, filter_date_map mood_df w.date hm, ih, List.map_cons, List.filter_cons]
    by_cases hmem : w.date ∈ mood_df.map (·.date)
    · simp [hmem]
    · simp [hmem]

/-- With unique dates on both sides, the join's length is the cardinality of
the intersection of the two date sets. -/
theorem pdMerge_length_inter (work_df : List WorkRow) (mood_df : List MoodRow)
    (hw : (work_df.map (·.date)).Nodup) (hm : (mood_df.map (·.date)).Nodup) :
    (pdMerge work_df mood_df).length =
      ((work_df.map (·.date)).toFinset ∩ (mood_df.map (·.date)).toFinset).card := by
  have h1 : (pdMerge work_df mood_df).length
      = ((pdMerge work_df mood_df).map (·.date)).length := (List.length_map _ _).symm
  rw [h1, pdMerge_map_date _ _ hm]
  have hnd : ((work_df.map (·.date)).filter fun d => decide (d ∈ mood_df.map (·.date))).Nodup :=
    hw.filter _
  rw [← List.toFinset_card_of_nodup hnd]
  congr 1
  ext a
  simp [List.mem_toFinset, List.mem_filter, Finset.mem_inter]

/-- Claim C4, amended: with unique dates on both sides the join's `date`
column is the work table's date column filtered to shared dates (hence the
join's length is the size of the date-set intersection), and the output is
strictly ascending whenever the *work* table's dates are strictly
ascending. -/
theorem claim_C4_join (work_df : List WorkRow) (mood_df : List MoodRow)
    (hw : (work_df.map (·.date)).Nodup) (hm : (mood_df.map (·.date)).Nodup) :
    (pdMerge work_df mood_df).map (·.date) =
        ((work_df.map (·.date)).filter fun d => decide (d ∈ mood_df.map (·.date))) ∧
      (pdMerge work_df mood_df).length =
        ((work_df.map (·.date)).toFinset ∩ (mood_df.map (·.date)).toFinset).card ∧
      ((work_df.map (·.date)).Pairwise (· < ·) →
        ((pdMerge work_df mood_df).map (·.date)).Pairwise (· < ·)) := by
  refine ⟨pdMerge_map_date _ _ hm, pdMerge_length_inter _ _ hw hm, fun hs => ?_⟩
  rw [pdMerge_map_date _ _ hm]
  exact hs.sublist (List.filter_sublist _)

/-- Work table listed in descending date order (valid: unique dates). -/
def wX : List WorkRow := [⟨2, 8, 10⟩, ⟨1, 8, 10⟩]

/-- Mood table listed in ascending date order (valid: unique dates). -/
def mX : List MoodRow := [⟨1, 7, 3, 8⟩, ⟨2, 7, 3, 8⟩]

/-- Counterexample to C4 as stated: two valid tables with unique, shared
dates whose join output follows the work table's (descending) order, so it
is *not* ascending "regardless of the row order of the two input tables". -/
theorem claim_C4_counterexample :
    (wX.map (·.date)).Nodup ∧ (mX.map (·.date)).Nodup ∧
      (1 : ℤ) ∈ wX.map (·.date) ∧ (1 : ℤ) ∈ mX.map (·.date) ∧
      (pdMerge wX mX).map (·.date) = [2, 1] ∧
      ¬ ((pdMerge wX mX).map (·.date)).Pairwise (· < ·) := by
  with_unfolding_all decide

/-- Witness for the amended C4 on an ascending fixture. -/
theorem claim_C4_witness :
    (pdMerge wA mA).map (·.date) =
        ((wA.map (·.date)).filter fun d => decide (d ∈ mA.map (·.date))) ∧
      (pdMerge wA mA).length = ((wA.map (·.date)).toFinset ∩ (mA.map (·.date)).toFinset).card ∧
      ((pdMerge wA mA).map (·.date)).Pairwise (· < ·) := by
  have h := claim_C4_join wA mA (by with_unfolding_all decide) (by with_unfolding_all decide)
  exact ⟨h.1, h.2.1, h.2.2 (by with_unfolding_all decide)⟩

/-! ### Claim C5: the schema validator -/

/-- The required columns of the wellbeing kind (keyed `'mood'` in the source). -/
def moodRequired : List String := ["date", "mood_score", "stress_level", "sleep_hours"]

/-- Membership in the missing-column list. -/
theorem mem_missingCols (cols req : List String) (c : String) :
    c ∈ missingCols cols req ↔ c ∈ req ∧ c ∉ cols := by
  simp [missingCols, List.mem_filter]

/-- Claim C5, amended to the source's kind string `'mood'`: validation
succeeds exactly when every required wellbeing column is present, on failure
the message lists exactly the missing required columns, and every
unrecognized kind — including the literal `"wellbeing"` — fails with the
distinct invalid-kind message. -/
theorem claim_C5_validator (cols : List String) :
    ((validate_csv_format cols "mood").1 = true ↔ ∀ c ∈ moodRequired, c ∈ cols) ∧
      (∀ c, c ∈ missingCols cols moodRequired ↔ (c ∈ moodRequired ∧ c ∉ cols)) ∧
      (missingCols cols moodRequired ≠ [] →
        validate_csv_format cols "mood" =
          (false, "Missing columns: " ++ String.intercalate ", " (missingCols cols moodRequired))) ∧
      (∀ k, k ≠ "work" → k ≠ "mood" → validate_csv_format cols k = (false, "Invalid data type")) := by
  have hreq : required_columns "mood" = some moodRequired := by with_unfolding_all decide
  refine ⟨?_, fun c => mem_missingCols cols moodRequired c, ?_, ?_⟩
  · constructor
    · intro h1 c hc
      by_contra hc2
      have hcmem : c ∈ missingCols cols moodRequired :=
        (mem_missingCols cols moodRequired c).mpr ⟨hc, hc2⟩
      have hne : missingCols cols moodRequired ≠ [] := by
        intro h0
        rw [h0] at hcmem
        exact absurd hcmem (List.not_mem_nil c)
      simp only [validate_csv_format, hreq] at h1
      rw [if_pos hne] at h1
      exact absurd h1 (by simp)
    · intro hall
      have hnil : missingCols cols moodRequired = [] := by
        cases hcase : missingCols cols moodRequired with
        | nil => rfl
        | cons a l =>
          exfalso
          have ha : a ∈ missingCols cols moodRequired := by
            rw [hcase]; exact List.mem_cons_self a l
          have h2 := (mem_missingCols cols moodRequired a).mp ha
          exact h2.2 (hall a h2.1)
      simp only [validate_csv_format, hreq]
      rw [if_neg (by simp [hnil])]
  · intro hne
    simp only [validate_csv_format, hreq]
    rw [if_pos hne]
  · intro k hk1 hk2
    have hnone : required_columns k = none := by
      simp only [required_columns]
      rw [if_neg hk1, if_neg hk2]
    simp only [validate_csv_format, hnone]

/-- Counterexample to C5 as stated: even with every wellbeing column
present, the kind `"wellbeing"` is not recognized by the source (its dict is
keyed `'mood'`), so validation returns the invalid-kind failure instead of
`ok=true`. -/
theorem claim_C5_counterexample :
    validate_csv_format ["date", "mood_score", "stress_level", "sleep_hours"] "wellbeing" =
      (false, "Invalid data type") := by
  with_unfolding_all decide

/-- Witness for the amended C5: a table missing two wellbeing columns. -/
theorem claim_C5_witness :
    validate_csv_format ["date", "mood_score"] "mood" =
      (false, "Missing columns: " ++ String.intercalate ", "
        (missingCols ["date", "mood_score"] moodRequired)) :=
  (claim_C5_validator ["date", "mood_score"]).2.2.1 (by with_unfolding_all decide)

/-! ### Claim C7: the extended-overwork rule -/

/-- The best total the overwork loop can still reach on the remaining list
when the current run already has length `cur`. -/
def maxFrom : List ℚ → ℕ → ℕ
  | [], cur => cur
  | h :: t, cur => if h > 9 then maxFrom t (cur + 1) else max cur (maxFrom t 0)

theorem le_maxFrom (l : List ℚ) : ∀ cur, cur ≤ maxFrom l cur := by
  induction l with
  | nil => intro cur; exact le_refl cur
  | cons a t ih =>
    intro cur
    rw [maxFrom]
    split
    · exact le_trans (Nat.le_succ cur) (ih (cur + 1))
    · exact le_max_left _ _

theorem maxConsecAux_eq (l : List ℚ) :
    ∀ cur best, cur ≤ best → maxConsecAux l cur best = max best (maxFrom l cur) := by
  induction l with
  | nil =>
    intro cur best h
    rw [maxConsecAux, maxFrom, Nat.max_eq_left h]
  | cons a t ih =>
    intro cur best h
    rw [maxConsecAux, maxFrom]
    by_cases ha : (a : ℚ) > 9
    · rw [if_pos ha, if_pos ha, ih (cur + 1) (max best (cur + 1)) (le_max_right _ _)]
      have h2 : cur + 1 ≤ maxFrom t (cur + 1) := le_maxFrom t (cur + 1)
      rw [Nat.max_assoc, Nat.max_eq_right h2]
    · rw [if_neg ha, if_neg ha, ih 0 best (Nat.zero_le best), ← Nat.max_assoc,
        Nat.max_eq_left h]

theorem longestRun_nil : longestRun [] = 0 := rfl

theorem longestRun_cons (a : ℚ) (s : List ℚ) :
    longestRun (a :: s) = max (runLen (a :: s)) (longestRun s) := by
  simp [longestRun, List.tails_cons]

theorem runLen_le_longestRun (t : List ℚ) : runLen t ≤ longestRun t := by
  cases t with
  | nil => exact le_refl 0
  | cons a s => rw [longestRun_cons]; exact le_max_left _ _

theorem maxFrom_eq (l : List ℚ) :
    ∀ cur, maxFrom l cur = max (cur + runLen l) (longestRun l) := by
  induction l with
  | nil =>
    intro cur
    rw [maxFrom, longestRun_nil]
    simp [runLen]
  | cons a t ih =>
    intro cur
    by_cases ha : (a : ℚ) > 9
    · have hb : (decide ((a : ℚ) > 9)) = true := decide_eq_true ha
      rw [maxFrom, if_pos ha, ih (cur + 1), longestRun_cons]
      have hr : runLen (a :: t) = runLen t + 1 := by
        simp [runLen, List.takeWhile_cons, hb]
      rw [hr]
      have h2 : runLen t + 1 ≤ cur + 1 + runLen t := by omega
      have h3 : cur + (runLen t + 1) = cur + 1 + runLen t := by omega
      rw [h3, ← Nat.max_assoc, Nat.max_eq_left h2]
    · have hb : (decide ((a : ℚ) > 9)) = false := decide_eq_false ha
      rw [maxFrom, if_neg ha, ih 0, longestRun_cons]
      have hr0 : runLen (a :: t) = 0 := by
        simp [runLen, List.takeWhile_cons, hb]
      rw [hr0]
      have hrt : runLen t ≤ longestRun t := runLen_le_longestRun t
      simp [Nat.max_eq_right hrt]

/-- The source's running-maximum loop computes exactly the declarative
longest run of consecutive `> 9` entries. -/
theorem maxConsec_eq_longestRun (l : List ℚ) : maxConsec l = longestRun l := by
  rw [maxConsec, maxConsecAux_eq l 0 0 (le_refl 0), maxFrom_eq l 0]
  have h1 : runLen l ≤ longestRun l := runLen_le_longestRun l
  simp [Nat.max_eq_right h1]

/-- Membership in a conditionally-present list. -/
theorem mem_ite_nil {α : Type} {c : Prop} [Decidable c] {l : List α} {a : α} :
    (a ∈ if c then l else []) ↔ c ∧ a ∈ l := by
  split
  · simp [*]
  · simp [*]

/-- Claim C7: the extended-overwork anomaly is in the output iff the longest
run of consecutive days with `work_hours > 9` is at least 3, and it reports
exactly that run length; on `[10,10,10,8,10,10,10]` the longest run is 3
(runs are not merged across the interruption). -/
theorem claim_C7_overwork :
    (∀ merged_df : List MergedRow,
      ((⟨"warning", "Extended Overwork Period",
          (longestRun (merged_df.map (·.work_hours)) : ℚ), "⚠️"⟩ : Anomaly) ∈
            detect_anomalies merged_df ↔
        3 ≤ longestRun (merged_df.map (·.work_hours)))) ∧
      longestRun [10, 10, 10, 8, 10, 10, 10] = 3 := by
  constructor
  · intro df
    simp [detect_anomalies, List.mem_append, mem_ite_nil, List.mem_singleton,
      maxConsec_eq_longestRun, Anomaly.mk.injEq, ge_iff_le]
  · with_unfolding_all decide

/-- Claim C10: on the empty joined table every rule is silent and the
detector returns the empty list (no arithmetic is attempted: the embedding
is total and evaluates). -/
theorem claim_C10_empty_detect : detect_anomalies [] = [] := by
  with_unfolding_all decide

/-! ### Claim C8: the positive-mood-trend rule -/

/-- Claim C8: the trend rule is evaluated only for more than 7 rows; it then
fires iff the mean mood of the last 7 rows exceeds the mean of the first 7
by more than 1, reporting the rounded delta; and for 8–13 rows the two
7-row windows overlap (they share a row). -/
theorem claim_C8_mood_trend (merged_df : List MergedRow) :
    ((¬ 7 < merged_df.length) →
        ∀ a ∈ detect_anomalies merged_df, a.title ≠ "Positive Mood Trend") ∧
      (7 < merged_df.length →
        (((⟨"success", "Positive Mood Trend",
            round1 (meanOf ((merged_df.drop (merged_df.length - 7)).map (·.mood_score)) -
              meanOf ((merged_df.take 7).map (·.mood_score))), "✨"⟩ : Anomaly) ∈
              detect_anomalies merged_df) ↔
          meanOf ((merged_df.drop (merged_df.length - 7)).map (·.mood_score)) >
            meanOf ((merged_df.take 7).map (·.mood_score)) + 1)) ∧
      (8 ≤ merged_df.length → merged_df.length ≤ 13 →
        ∃ x, x ∈ merged_df.take 7 ∧ x ∈ merged_df.drop (merged_df.length - 7)) := by
  refine ⟨?_, ?_, ?_⟩
  · intro hn a ha
    simp only [detect_anomalies, List.mem_append, mem_ite_nil, List.mem_singleton] at ha
    rcases ha with ((⟨-, rfl⟩ | ⟨-, rfl⟩) | ⟨h7, -⟩) | ⟨-, rfl⟩
    · simp
    · simp
    · exact absurd h7 hn
    · simp
  · intro h7
    simp [detect_anomalies, List.mem_append, mem_ite_nil, List.mem_singleton,
      Anomaly.mk.injEq, h7]
  · intro h8 h13
    have htk : (merged_df.length - 7) < (merged_df.take 7).length := by
      rw [List.length_take]; omega
    have hdp : 0 < (merged_df.drop (merged_df.length - 7)).length := by
      rw [List.length_drop]; omega
    refine ⟨(merged_df.take 7).get ⟨merged_df.length - 7, htk⟩, List.get_mem _ _ _, ?_⟩
    have e1 : (merged_df.take 7).get ⟨merged_df.length - 7, htk⟩
        = (merged_df.drop (merged_df.length - 7)).get ⟨0, hdp⟩ := by
      simp [List.get_eq_getElem]
    rw [e1]
    exact List.get_mem _ _ _

/-- An 8-row fixture whose mood jumps on the last day. -/
def df8 : List MergedRow :=
  [⟨1, 8, 10, 1, 5, 7, none⟩, ⟨2, 8, 10, 1, 5, 7, none⟩, ⟨3, 8, 10, 1, 5, 7, none⟩,
   ⟨4, 8, 10, 1, 5, 7, none⟩, ⟨5, 8, 10, 1, 5, 7, none⟩, ⟨6, 8, 10, 1, 5, 7, none⟩,
   ⟨7, 8, 10, 1, 5, 7, none⟩, ⟨8, 8, 10, 9, 5, 7, none⟩]

/-- Witness for C8: on the 8-row fixture the trend anomaly fires with the
rounded delta. -/
theorem claim_C8_witness :
    ((⟨"success", "Positive Mood Trend",
        round1 (meanOf ((df8.drop (df8.length - 7)).map (·.mood_score)) -
          meanOf ((df8.take 7).map (·.mood_score))), "✨"⟩ : Anomaly) ∈
      detect_anomalies df8) :=
  ((claim_C8_mood_trend df8).2.1 (by with_unfolding_all decide)).mpr
    (by with_unfolding_all decide)

/-! ### Claim C6: zero-variance correlation and insight rule 2 -/

@[simp] theorem corrGtPos_none (t : ℚ) : corrGtPos none t = false := rfl

@[simp] theorem corrLtNeg_none (t : ℚ) : corrLtNeg none t = false := rfl

theorem sum_const {l : List ℚ} {c : ℚ} (h : ∀ x ∈ l, x = c) : l.sum = c * l.length := by
  induction l with
  | nil => simp
  | cons a t ih =>
    have ha : a = c := h a (List.mem_cons_self a t)
    have ht := ih fun x hx => h x (List.mem_cons_of_mem a hx)
    simp [ha, ht]
    ring

/-- A constant first series has zero variance, so the Pearson coefficient is
NaN (`none`), whatever the second series is. -/
theorem pearsonStats_const (xs ys : List ℚ) (h : ∀ x ∈ xs, ∀ y ∈ xs, x = y) :
    pearsonStats xs ys = none := by
  cases xs with
  | nil => simp [pearsonStats]
  | cons a t =>
    have hall : ∀ x ∈ (a :: t), x = a := fun x hx => h x hx a (List.mem_cons_self a t)
    have hmean : (a :: t).sum / (((a :: t).length : ℕ) : ℚ) = a := by
      rw [sum_const hall]
      have hne : (((a :: t).length : ℕ) : ℚ) ≠ 0 := by
        have hpos : 0 < (a :: t).length := Nat.succ_pos t.length
        have : (0 : ℚ) < (((a :: t).length : ℕ) : ℚ) := by exact_mod_cast hpos
        exact ne_of_gt this
      field_simp
    have hsxx : ((a :: t).map fun x => (x - (a :: t).sum / (((a :: t).length : ℕ) : ℚ)) ^ 2).sum
        = 0 := by
      apply List.sum_eq_zero
      intro y hy
      rcases List.mem_map.mp hy with ⟨x, hx, rfl⟩
      rw [hall x hx, hmean]
      ring
    simp only [pearsonStats]
    rw [if_neg (by simp)]
    rw [if_pos (Or.inl hsxx)]

/-- Claim C6: when `work_hours` is constant over the joined table, the
correlation is NaN (`none` — never a number, never `0`), and the generated
insight list contains neither work-wellbeing-correlation insight. -/
theorem claim_C6_zero_variance (work_df : List WorkRow) (mood_df : List MoodRow)
    (hconst : ∀ x ∈ (pdMerge work_df mood_df).map (·.work_hours),
      ∀ y ∈ (pdMerge work_df mood_df).map (·.work_hours), x = y) :
    (calculate_rhythm_score work_df mood_df).correlation = none ∧
      ∀ out, generate_insights (calculate_rhythm_score work_df mood_df) = Except.ok out →
        ∀ i ∈ out.1, i.title ≠ "Negative Work-Wellbeing Link" ∧
          i.title ≠ "Positive Work-Wellbeing Link" := by
  have hc : (calculate_rhythm_score work_df mood_df).correlation = none := by
    simp only [calculate_rhythm_score]
    exact pearsonStats_const _ _ hconst
  refine ⟨hc, ?_⟩
  intro out hout i hi
  simp only [generate_insights, hc, corrLtNeg_none, corrGtPos_none, Bool.false_eq_true,
    if_false] at hout
  split at hout
  · exact absurd hout (by simp)
  · rw [Except.ok.injEq] at hout
    subst hout
    simp only [List.nil_append] at hi
    rcases List.mem_cons.mp hi with rfl | hi2
    · exact ⟨by simp, by simp⟩
    · rcases List.mem_append.mp hi2 with hi3 | hi4
      · rcases mem_ite_nil.mp hi3 with ⟨-, hi3m⟩
        rcases List.mem_singleton.mp hi3m with rfl
        exact ⟨by simp, by simp⟩
      · rcases List.mem_singleton.mp hi4 with rfl
        exact ⟨by simp, by simp⟩

/-- Constant-work fixture (work hours 8 on both days). -/
def w6 : List WorkRow := [⟨1, 8, 10⟩, ⟨2, 8, 12⟩]

/-- Mood half of the constant-work fixture. -/
def m6 : List MoodRow := [⟨1, 7, 3, 8⟩, ⟨2, 6, 4, 7⟩]

/-- Witness for C6 on the constant-work fixture. -/
theorem claim_C6_witness : (calculate_rhythm_score w6 m6).correlation = none :=
  (claim_C6_zero_variance w6 m6 (by with_unfolding_all decide)).1

/-! ### Claim C9: the `hour_category` assignment mutates the shared table -/

/-- The joined table handed back by `generate_insights` is the input table
with the `hour_category` column assigned. -/
theorem generate_insights_snd (r : ScoreResult) (out : List Insight × List MergedRow)
    (hout : generate_insights r = Except.ok out) :
    out.2 = r.merged_data.map fun row =>
      { row with hour_category := hourCategory row.work_hours } := by
  simp only [generate_insights] at hout
  split at hout
  · exact absurd hout (by simp)
  · rw [Except.ok.injEq] at hout
    rw [← hout]

/-- Claim C9, amended: `calculate_rhythm_score` and `detect_anomalies` are
pure, but `generate_insights` mutates the joined table inside the
`ScoreResult` by assigning the `hour_category` column — and only that
column: every other field of every row is unchanged. -/
theorem claim_C9_mutation (r : ScoreResult) (h : (generate_insights r).toOption ≠ none) :
    (generate_insights r).toOption.map (fun p => p.2.map (·.date)) =
        some (r.merged_data.map (·.date)) ∧
      (generate_insights r).toOption.map (fun p => p.2.map (·.work_hours)) =
        some (r.merged_data.map (·.work_hours)) ∧
      (generate_insights r).toOption.map (fun p => p.2.map (·.tasks_completed)) =
        some (r.merged_data.map (·.tasks_completed)) ∧
      (generate_insights r).toOption.map (fun p => p.2.map (·.mood_score)) =
        some (r.merged_data.map (·.mood_score)) ∧
      (generate_insights r).toOption.map (fun p => p.2.map (·.stress_level)) =
        some (r.merged_data.map (·.stress_level)) ∧
      (generate_insights r).toOption.map (fun p => p.2.map (·.sleep_hours)) =
        some (r.merged_data.map (·.sleep_hours)) ∧
      (generate_insights r).toOption.map (fun p => p.2.map (·.hour_category)) =
        some (r.merged_data.map fun x => hourCategory x.work_hours) := by
  cases hg : generate_insights r with
  | error e => exfalso; apply h; rw [hg]; rfl
  | ok out =>
    have hsnd := generate_insights_snd r out hg
    refine ⟨?_, ?_, ?_, ?_, ?_, ?_, ?_⟩ <;>
      simp [Except.toOption, hsnd, List.map_map, Function.comp]

/-- A one-row fixture whose analysis succeeds. -/
def r9 : ScoreResult := calculate_rhythm_score [⟨1, 8, 10⟩] [⟨1, 8, 3, 8⟩]

/-- Counterexample to C9 as stated: on the fixture, insight generation
succeeds and hands back a joined table different from the one inside the
`ScoreResult` it was given (the `hour_category` column was assigned). -/
theorem claim_C9_counterexample :
    (generate_insights r9).toOption ≠ none ∧
      (generate_insights r9).toOption.map Prod.snd ≠ some r9.merged_data := by
  with_unfolding_all decide

/-- Witness for the amended C9 on the fixture. -/
theorem claim_C9_witness :
    (generate_insights r9).toOption.map (fun p => p.2.map (·.hour_category)) =
      some (r9.merged_data.map fun x => hourCategory x.work_hours) :=
  (claim_C9_mutation r9 (by with_unfolding_all decide)).2.2.2.2.2.2

/-! ### Claim C1: empty join -/

/-- Work table for the disjoint-dates fixture. -/
def w1 : List WorkRow := [⟨1, 8, 10⟩]

/-- Mood table for the disjoint-dates fixture (no shared date). -/
def m1 : List MoodRow := [⟨2, 7, 3, 8⟩]

/-- Claim C1 evaluated at the failing input: with disjoint date sets the
join is empty, and `calculate_rhythm_score` does *not* fail with a typed
error — it returns a `ScoreResult` whose statistics are NaN (`none`), with
`machine_score = 100` because `min(100, NaN)` evaluates to `100`. -/
theorem claim_C1_empty_join_result :
    pdMerge w1 m1 = [] ∧
      calculate_rhythm_score w1 m1 =
        { rhythm_score := none, machine_score := some 100, human_score := none,
          avg_work_hours := none, avg_mood := none, avg_stress := none, avg_sleep := none,
          correlation := none, merged_data := [] } := by
  with_unfolding_all decide
